import Mathlib

/-
Shallow embedding of
`framework/src/framework/common/space/embedding/sentence_transformer_manager.py`
from the superlinked repository.

The module under verification is the sentence-transformer embedding
orchestration core: device selection, model acquisition, prompt selection,
batch encoding, and the translation of low-level `RuntimeError` /
`ValueError` failures into the domain `EmbeddingException`.

Modelling conventions:
- Python exceptions are values of `PyExc`; a function that can raise returns
  `Except PyExc _`.  Exception classes are identified by `PyType`; the exact
  runtime type (`type(e)`) distinguishes `RuntimeError` and `ValueError` from
  their proper subclasses, which matters because the predicate table is a
  dict keyed by exact class while the `except (RuntimeError, ValueError)`
  clause also catches subclasses.
- The external collaborators (`GpuEmbeddingUtil.get_device_type`,
  `SentenceTransformerModelCache.initialize_model`,
  `SentenceTransformerModelCache.calculate_length`) are bundled in a
  `Collaborators` record of pure functions supplied per call.
- Every call to a collaborator, to `model.encode`, and to the failure
  classifier is recorded in an event trace (`List Event`) so that claims of
  the form "X is never invoked" / "X is called with argument Y" are
  statable; the functions return `result × trace` pairs.
- The numpy `ndarray` returned by `encode` is modelled as `List (List α)`
  for an arbitrary scalar type `α`; `.tolist()` is then the identity.
-/

namespace Superlinked

/-- Python exception classes relevant to the module, identified by exact
runtime type (`type(e)`): the two base classes used as keys of
`EXCEEDED_LENGTH_EXCEPTION_PREDICATE_BY_EXCEPTION_TYPE`, proper subclasses of
them (still caught by the `except (RuntimeError, ValueError)` clause, but
distinct dict keys), the domain class `EmbeddingException`, and any other
class (e.g. `TimeoutError`). -/
inductive PyType where
  | runtimeError
  | valueError
  | subRuntimeError (name : String)
  | subValueError (name : String)
  | embeddingException
  | other (name : String)
deriving DecidableEq

/-- Python exception value: exact runtime class, message (`str(e)`), and the
`__cause__` set by `raise ... from ...`. -/
inductive PyExc where
  | mk (ty : PyType) (msg : String) (cause : Option PyExc)

/-- Exact runtime class of the exception (`type(e)`). -/
def PyExc.ty : PyExc → PyType
  | .mk t _ _ => t

/-- Message of the exception (`str(e)`). -/
def PyExc.msg : PyExc → String
  | .mk _ m _ => m

/-- Chained cause of the exception (`e.__cause__`). -/
def PyExc.cause : PyExc → Option PyExc
  | .mk _ _ c => c

/-- Whether `isinstance(e, (RuntimeError, ValueError))` holds for an
exception of this class, i.e. whether the `except` clause in `_embed`
catches it: true for the two base classes and their subclasses. -/
def PyType.isRuntimeOrValueError : PyType → Bool
  | .runtimeError => true
  | .valueError => true
  | .subRuntimeError _ => true
  | .subValueError _ => true
  | _ => false

/-- Python substring test `pat in s`. -/
def strContains (s pat : String) : Bool := decide (pat.data <:+: s.data)

/-- Python `s.startswith(pat)`. -/
def strStartsWith (s pat : String) : Bool := decide (pat.data <+: s.data)

/-- One element of the `Sequence[str | Image]` input batch: a text string or
an opaque PIL image. -/
inductive EmbInput where
  | str (s : String)
  | img (id : Nat)
deriving DecidableEq

/-- Device chosen by the external device selector (accelerator vs.
general-purpose processor). -/
inductive DeviceType where
  | cpu
  | gpu
deriving DecidableEq

/-- Execution context; the core only reads its `is_query_context` flag. -/
structure ExecutionContext where
  is_query_context : Bool

/-- Immutable numeric container wrapping one embedding row
(`superlinked.framework.common.data_types.Vector`). -/
structure Vector (α : Type) where
  value : List α

/-- Model handle returned by the model cache: its declared prompt names
(keys of the `prompts` dict), its optional `default_prompt_name`, and its
`encode` operation, which either returns one numeric row per input or
raises. -/
structure SentenceTransformer (α : Type) where
  prompts : List String
  default_prompt_name : Option String
  encode : List EmbInput → Option String → Except PyExc (List (List α))

/-- The manager's configuration fields inherited from `ModelManager`
(`self._model_name`, `self._model_cache_dir`). -/
structure SentenceTransformerManager where
  _model_name : String
  _model_cache_dir : Option String

/-- External collaborators consumed by the manager, as pure functions:
`GpuEmbeddingUtil.get_device_type`,
`SentenceTransformerModelCache.initialize_model` (here `init_model`), and
`SentenceTransformerModelCache.calculate_length`
(here `cache_calculate_length`). -/
structure Collaborators (α : Type) where
  get_device_type : Nat → DeviceType
  init_model : String → DeviceType → Option String → SentenceTransformer α
  cache_calculate_length : String → Option String → Nat

/-- Observable calls made by the manager during one invocation: a call to
the device selector, to the model cache's model acquisition, to
`model.encode`, to the model cache's length lookup, and to the private
failure classifier. -/
inductive Event where
  | getDeviceType (batch_size : Nat)
  | initModelCall (name : String) (device : DeviceType) (cache_dir : Option String)
  | encodeCall (inputs : List EmbInput) (prompt_name : Option String)
  | cacheCalculateLength (name : String) (cache_dir : Option String)
  | handleExceededCall (inputs : List EmbInput)
deriving DecidableEq

/-- Reserved prompt name `QUERY_PROMPT_NAME = "query"`. -/
def QUERY_PROMPT_NAME : String := "query"

/-- The module-level dict
`EXCEEDED_LENGTH_EXCEPTION_PREDICATE_BY_EXCEPTION_TYPE`, as its `.get`
lookup: keyed by exact exception class, it holds a message predicate for
`RuntimeError` (both tensor-size substrings present) and for `ValueError`
(message starts with the max_position_embeddings marker), and nothing for
any other class. -/
def EXCEEDED_LENGTH_EXCEPTION_PREDICATE_BY_EXCEPTION_TYPE :
    PyType → Option (String → Bool)
  | .runtimeError => some fun e =>
      strContains e "The size of tensor a" && strContains e "must match the size of tensor b"
  | .valueError => some fun e =>
      strStartsWith e "Sequence length must be less than max_position_embeddings"
  | _ => none

/-- Length contribution of one batch element to the longest-input
diagnostic: `len(str(x)) if isinstance(x, str) else 0` (for a string `x`,
`str(x)` is `x` itself). -/
def strLenOrZero : EmbInput → Nat
  | .str s => s.length
  | .img _ => 0

/-- The exception Python's builtin `max` raises when applied to an empty
sequence. -/
def MAX_EMPTY_SEQUENCE_ERROR : PyExc :=
  .mk .valueError "max() arg is an empty sequence" none

/-- Python's builtin `max` over a sequence of naturals: undefined (raises a
`ValueError`) on the empty sequence, otherwise the left fold of binary max
over the elements. -/
def pyMax : List Nat → Except PyExc Nat
  | [] => .error MAX_EMPTY_SEQUENCE_ERROR
  | x :: xs => .ok (xs.foldl max x)

/-- Message of the translated capacity-exceeded `EmbeddingException`
(the f-string in `__handle_exceeded_length_exception`). -/
def exceeded_length_message (model_name : String) (longest_input_len : Nat) : String :=
  "Model " ++ model_name ++
    " failed to encode inputs - input was too long. Try shortening the input text.\n" ++
    "Longest input length: " ++ toString longest_input_len ++ " chars"

/-- The private classifier `__handle_exceeded_length_exception`, returned as
the exception it raises (every path raises: the translated
`EmbeddingException` chained to the original, the re-raised original, or —
only reachable with an empty batch — the `max()` error). -/
def __handle_exceeded_length_exception (self : SentenceTransformerManager)
    (exception : PyExc) (inputs : List EmbInput) : PyExc :=
  match EXCEEDED_LENGTH_EXCEPTION_PREDICATE_BY_EXCEPTION_TYPE exception.ty with
  | some predicate =>
      if predicate exception.msg then
        match pyMax (inputs.map strLenOrZero) with
        | .ok longest_input_len =>
            .mk .embeddingException
              (exceeded_length_message self._model_name longest_input_len)
              (some exception)
        | .error maxExc => maxExc
      else exception
  | none => exception

/-- `_get_embedding_model`: asks the device selector for a device based on
the number of inputs, then acquires the model from the cache keyed by
(model name, device, cache dir). -/
def _get_embedding_model (C : Collaborators α) (self : SentenceTransformerManager)
    (number_of_inputs : Nat) : SentenceTransformer α × List Event :=
  let device_type := C.get_device_type number_of_inputs
  let model := C.init_model self._model_name device_type self._model_cache_dir
  (model, [Event.getDeviceType number_of_inputs,
    Event.initModelCall self._model_name device_type self._model_cache_dir])

/-- `_calculate_prompt_name`: `"query"` when the model declares that prompt
and the context is a query context, otherwise the model's default prompt
name. -/
def _calculate_prompt_name (model : SentenceTransformer α)
    (context : ExecutionContext) : Option String :=
  if model.prompts.contains QUERY_PROMPT_NAME && context.is_query_context then
    some QUERY_PROMPT_NAME
  else
    model.default_prompt_name

/-- `_encode`: invokes `model.encode(list(inputs), prompt_name=prompt_name)`. -/
def _encode (inputs : List EmbInput) (model : SentenceTransformer α)
    (prompt_name : Option String) : Except PyExc (List (List α)) × List Event :=
  (model.encode inputs prompt_name, [Event.encodeCall inputs prompt_name])

/-- `_embed`: acquires the model, selects the prompt, encodes, and on a
`RuntimeError` / `ValueError` (subclasses included) runs the failure
classifier; any other exception propagates uncaught.  On success
`.tolist()` is the identity on the modelled array. -/
def _embed (C : Collaborators α) (self : SentenceTransformerManager)
    (inputs : List EmbInput) (context : ExecutionContext) :
    Except PyExc (List (List α)) × List Event :=
  let mev := _get_embedding_model C self inputs.length
  let prompt_name := _calculate_prompt_name mev.1 context
  let eev := _encode inputs mev.1 prompt_name
  match eev.1 with
  | .ok embeddings => (.ok embeddings, mev.2 ++ eev.2)
  | .error e =>
      if e.ty.isRuntimeOrValueError then
        (.error (__handle_exceeded_length_exception self e inputs),
          mev.2 ++ eev.2 ++ [Event.handleExceededCall inputs])
      else
        (.error e, mev.2 ++ eev.2)

/-- `embed_text`: empty input short-circuits to `[]`; otherwise each numeric
row from `_embed` is wrapped in a `Vector`, preserving order. -/
def embed_text (C : Collaborators α) (self : SentenceTransformerManager)
    (inputs : List String) (context : ExecutionContext) :
    Except PyExc (List (Vector α)) × List Event :=
  if inputs.isEmpty then (.ok [], [])
  else
    let rev := _embed C self (inputs.map EmbInput.str) context
    match rev.1 with
    | .ok embeddings => (.ok (embeddings.map fun embedding => ⟨embedding⟩), rev.2)
    | .error e => (.error e, rev.2)

/-- `calculate_length`: delegates to the model cache's length lookup, keyed
by model name and cache dir. -/
def calculate_length (C : Collaborators α) (self : SentenceTransformerManager) :
    Nat × List Event :=
  (C.cache_calculate_length self._model_name self._model_cache_dir,
    [Event.cacheCalculateLength self._model_name self._model_cache_dir])

/-- The model `embed_text` works with for a given batch size: first
component of `_get_embedding_model`. -/
def modelOf (C : Collaborators α) (self : SentenceTransformerManager)
    (n : Nat) : SentenceTransformer α :=
  (_get_embedding_model C self n).1

/-- The prompt name `embed_text` passes to `encode` for a given batch size
and context. -/
def promptOf (C : Collaborators α) (self : SentenceTransformerManager)
    (n : Nat) (context : ExecutionContext) : Option String :=
  _calculate_prompt_name (modelOf C self n) context

/-- Maximum length over a batch of string inputs (empty batch gives 0). -/
def longestStringLen (inputs : List String) : Nat :=
  (inputs.map String.length).foldl max 0

/-- Maximum of `strLenOrZero` over a mixed batch (empty batch gives 0). -/
def longestLen (batch : List EmbInput) : Nat :=
  (batch.map strLenOrZero).foldl max 0

/-- Concrete `RuntimeError` carrying both tensor-size substrings, as raised
by torch on an over-length input. -/
def demoRuntimeExc : PyExc :=
  .mk .runtimeError "The size of tensor a (4) must match the size of tensor b (2)" none

/-- Concrete `ValueError` starting with the max_position_embeddings marker. -/
def demoValueExc : PyExc :=
  .mk .valueError "Sequence length must be less than max_position_embeddings (511)" none

/-- Concrete exception of an unrelated class. -/
def demoTimeoutExc : PyExc := .mk (.other "TimeoutError") "operation timed out" none

/-- Concrete exception whose runtime type is a proper subclass of
`RuntimeError` but whose message matches the `RuntimeError` predicate. -/
def demoSubExc : PyExc :=
  .mk (.subRuntimeError "OutOfMemoryError")
    "The size of tensor a (4) must match the size of tensor b (2)" none

/-- Concrete model whose `encode` always raises `e`. -/
def demoModelRaising (e : PyExc) : SentenceTransformer Int :=
  { prompts := [], default_prompt_name := none, encode := fun _ _ => .error e }

/-- Concrete model whose `encode` always returns `rows`. -/
def demoModelRows (rows : List (List Int)) : SentenceTransformer Int :=
  { prompts := [], default_prompt_name := none, encode := fun _ _ => .ok rows }

/-- Concrete model that declares the `"query"` prompt and whose default
prompt name is itself `"query"` (the sentence-transformers library allows —
indeed requires — the default prompt name to be one of the declared
prompts). -/
def demoQueryDefaultModel : SentenceTransformer Int :=
  { prompts := ["query"], default_prompt_name := some "query",
    encode := fun _ _ => .ok [] }

/-- Concrete collaborator bundle built around one model. -/
def demoCollabWith (m : SentenceTransformer Int) : Collaborators Int :=
  { get_device_type := fun _ => .cpu, init_model := fun _ _ _ => m,
    cache_calculate_length := fun _ _ => 2 }

/-- Concrete manager configuration. -/
def demoManager : SentenceTransformerManager :=
  { _model_name := "demo-model", _model_cache_dir := none }

/-- Concrete indexing-time context. -/
def demoContext : ExecutionContext := { is_query_context := false }

/-- Concrete query-time context. -/
def demoQueryContext : ExecutionContext := { is_query_context := true }

theorem pyMax_ne_nil (l : List Nat) (h : l ≠ []) : pyMax l = .ok (l.foldl max 0) := by
  cases l with
  | nil => exact absurd rfl h
  | cons x xs => simp [pyMax, Nat.zero_max]

theorem longestLen_map_str (inputs : List String) :
    longestLen (inputs.map EmbInput.str) = longestStringLen inputs := by
  have h : strLenOrZero ∘ EmbInput.str = String.length := funext fun s => rfl
  simp [longestLen, longestStringLen, List.map_map, h]

theorem embed_text_error_case (α : Type) (C : Collaborators α)
    (self : SentenceTransformerManager) (inputs : List String)
    (context : ExecutionContext) (e : PyExc)
    (hne : inputs ≠ [])
    (henc : (modelOf C self inputs.length).encode (inputs.map EmbInput.str)
        (promptOf C self inputs.length context) = Except.error e) :
    (embed_text C self inputs context).1 =
      if e.ty.isRuntimeOrValueError then
        Except.error (__handle_exceeded_length_exception self e (inputs.map EmbInput.str))
      else Except.error e := by
  cases inputs with
  | nil => exact absurd rfl hne
  | cons x xs =>
    simp only [modelOf, promptOf, _get_embedding_model, List.length_cons, List.map_cons] at henc
    by_cases hb : e.ty.isRuntimeOrValueError = true <;>
      simp [embed_text, _embed, _encode, _get_embedding_model, henc, hb]

theorem embed_text_ok_case (α : Type) (C : Collaborators α)
    (self : SentenceTransformerManager) (inputs : List String)
    (context : ExecutionContext) (rows : List (List α))
    (hne : inputs ≠ [])
    (henc : (modelOf C self inputs.length).encode (inputs.map EmbInput.str)
        (promptOf C self inputs.length context) = Except.ok rows) :
    (embed_text C self inputs context).1 =
      Except.ok (rows.map fun row => (⟨row⟩ : Vector α)) := by
  cases inputs with
  | nil => exact absurd rfl hne
  | cons x xs =>
    simp only [modelOf, promptOf, _get_embedding_model, List.length_cons, List.map_cons] at henc
    simp [embed_text, _embed, _encode, _get_embedding_model, henc]

theorem embed_text_trace_nonempty (α : Type) (C : Collaborators α)
    (self : SentenceTransformerManager) (inputs : List String)
    (context : ExecutionContext)
    (hne : inputs ≠ []) :
    ∃ tail, (embed_text C self inputs context).2 =
      Event.getDeviceType inputs.length ::
      Event.initModelCall self._model_name (C.get_device_type inputs.length) self._model_cache_dir ::
      Event.encodeCall (inputs.map EmbInput.str) (promptOf C self inputs.length context) :: tail ∧
      (tail = [] ∨ tail = [Event.handleExceededCall (inputs.map EmbInput.str)]) := by
  cases inputs with
  | nil => exact absurd rfl hne
  | cons x xs =>
    cases henc : (modelOf C self (x :: xs).length).encode ((x :: xs).map EmbInput.str)
        (promptOf C self (x :: xs).length context) with
    | ok rows =>
      refine ⟨[], ?_, Or.inl rfl⟩
      simp only [modelOf, promptOf, _get_embedding_model, List.length_cons, List.map_cons] at henc
      simp [embed_text, _embed, _encode, _get_embedding_model, promptOf, modelOf, henc]
    | error e =>
      by_cases hb : e.ty.isRuntimeOrValueError = true
      · refine ⟨[Event.handleExceededCall ((x :: xs).map EmbInput.str)], ?_, Or.inr rfl⟩
        simp only [modelOf, promptOf, _get_embedding_model, List.length_cons, List.map_cons] at henc
        simp [embed_text, _embed, _encode, _get_embedding_model, promptOf, modelOf, henc, hb]
      · refine ⟨[], ?_, Or.inl rfl⟩
        simp only [modelOf, promptOf, _get_embedding_model, List.length_cons, List.map_cons] at henc
        simp [embed_text, _embed, _encode, _get_embedding_model, promptOf, modelOf, henc, hb]

theorem handle_matched (self : SentenceTransformerManager) (e : PyExc)
    (batch : List EmbInput) (p : String → Bool)
    (hp : EXCEEDED_LENGTH_EXCEPTION_PREDICATE_BY_EXCEPTION_TYPE e.ty = some p)
    (hmatch : p e.msg = true) (hne : batch ≠ []) :
    __handle_exceeded_length_exception self e batch =
      PyExc.mk PyType.embeddingException
        (exceeded_length_message self._model_name (longestLen batch)) (some e) := by
  have hmax := pyMax_ne_nil (batch.map strLenOrZero) (by simpa using hne)
  simp [__handle_exceeded_length_exception, hp, hmatch, hmax, longestLen]

/-- Claim C1, counterexample to the claim as stated: the "exactly when"
(iff) direction fails.  For a model that declares the `"query"` prompt and
whose default prompt name is `"query"`, an indexing-time context makes the
condition of the claim false, yet the selected prompt name is still
`"query"` (it is the model's default). -/
theorem C1_query_prompt_iff_counterexample :
    ¬ (_calculate_prompt_name demoQueryDefaultModel demoContext = some QUERY_PROMPT_NAME ↔
      QUERY_PROMPT_NAME ∈ demoQueryDefaultModel.prompts ∧
        demoContext.is_query_context = true) := by
  decide

/-- Claim C1, amended: for every model and execution context, if the
model's declared prompt set contains `"query"` and the context's
`is_query_context` flag is true then the selected prompt name is `"query"`;
in every other case the selected prompt name is the model's declared
default prompt name, which may be absent (and may itself be `"query"`). -/
theorem C1_prompt_selection (α : Type) (model : SentenceTransformer α)
    (context : ExecutionContext) :
    (QUERY_PROMPT_NAME ∈ model.prompts ∧ context.is_query_context = true →
      _calculate_prompt_name model context = some QUERY_PROMPT_NAME) ∧
    (¬ (QUERY_PROMPT_NAME ∈ model.prompts ∧ context.is_query_context = true) →
      _calculate_prompt_name model context = model.default_prompt_name) := by
  constructor
  · rintro ⟨hmem, hq⟩
    simp [_calculate_prompt_name, hmem, hq]
  · intro h
    rw [Decidable.not_and_iff_or_not] at h
    rcases h with h | h
    · simp [_calculate_prompt_name, h]
    · simp only [Bool.not_eq_true] at h
      simp [_calculate_prompt_name, h]

/-- Witness for C1: a model declaring `"query"` in a query-time context
selects `"query"`, and the same model in an indexing-time context selects
its default prompt name. -/
theorem C1_prompt_selection_witness :
    _calculate_prompt_name demoQueryDefaultModel demoQueryContext = some QUERY_PROMPT_NAME ∧
    _calculate_prompt_name (demoModelRows []) demoContext = none :=
  ⟨(C1_prompt_selection Int demoQueryDefaultModel demoQueryContext).1 ⟨by decide, rfl⟩,
   (C1_prompt_selection Int (demoModelRows []) demoContext).2 (by decide)⟩

/-- Claim C2: for a non-empty batch, a `RuntimeError` from `encode` whose
message contains both tensor-size substrings surfaces from `embed_text` as
the `EmbeddingException` whose reported longest-input length is the
maximum string length of the batch, with the original error as cause; a
`RuntimeError` whose message contains only one of the two substrings
propagates unchanged. -/
theorem C2_runtime_error_translation (α : Type) (C : Collaborators α)
    (self : SentenceTransformerManager) (inputs : List String)
    (context : ExecutionContext) (e : PyExc)
    (hne : inputs ≠ [])
    (hty : e.ty = PyType.runtimeError)
    (henc : (modelOf C self inputs.length).encode (inputs.map EmbInput.str)
        (promptOf C self inputs.length context) = Except.error e) :
    (strContains e.msg "The size of tensor a" = true ∧
        strContains e.msg "must match the size of tensor b" = true →
      (embed_text C self inputs context).1 = Except.error (PyExc.mk PyType.embeddingException
        (exceeded_length_message self._model_name (longestStringLen inputs)) (some e))) ∧
    (strContains e.msg "The size of tensor a" ≠ strContains e.msg "must match the size of tensor b" →
      (embed_text C self inputs context).1 = Except.error e) := by
  have hb : e.ty.isRuntimeOrValueError = true := by rw [hty]; rfl
  have h1 := embed_text_error_case α C self inputs context e hne henc
  rw [if_pos hb] at h1
  constructor
  · rintro ⟨hA, hB⟩
    rw [h1]
    rw [handle_matched self e (inputs.map EmbInput.str)
      (fun m => strContains m "The size of tensor a" && strContains m "must match the size of tensor b")
      (by rw [hty]; rfl) (by simp [hA, hB]) (by simp [hne])]
    rw [longestLen_map_str]
  · intro hOne
    have hpm : (strContains e.msg "The size of tensor a" &&
        strContains e.msg "must match the size of tensor b") = false := by
      cases hA : strContains e.msg "The size of tensor a" <;>
        cases hB : strContains e.msg "must match the size of tensor b" <;> simp_all
    rw [h1]
    simp [__handle_exceeded_length_exception, hty, hpm,
      EXCEEDED_LENGTH_EXCEPTION_PREDICATE_BY_EXCEPTION_TYPE]

/-- Witness for C2: a batch of lengths 2 and 4 with a matching
`RuntimeError` yields the capacity error reporting length 4. -/
theorem C2_runtime_error_translation_witness :
    (embed_text (demoCollabWith (demoModelRaising demoRuntimeExc)) demoManager
        ["ab", "abcd"] demoContext).1 =
      Except.error (PyExc.mk PyType.embeddingException
        (exceeded_length_message "demo-model" 4) (some demoRuntimeExc)) :=
  (C2_runtime_error_translation Int (demoCollabWith (demoModelRaising demoRuntimeExc))
      demoManager ["ab", "abcd"] demoContext demoRuntimeExc (by decide) rfl rfl).1
    ⟨by decide, by decide⟩

/-- Claim C3: for a non-empty batch, a `ValueError` from `encode` whose
message begins with the max_position_embeddings marker surfaces from
`embed_text` as the capacity-exceeded `EmbeddingException`; a `ValueError`
whose message does not begin with the marker propagates unchanged. -/
theorem C3_value_error_translation (α : Type) (C : Collaborators α)
    (self : SentenceTransformerManager) (inputs : List String)
    (context : ExecutionContext) (e : PyExc)
    (hne : inputs ≠ [])
    (hty : e.ty = PyType.valueError)
    (henc : (modelOf C self inputs.length).encode (inputs.map EmbInput.str)
        (promptOf C self inputs.length context) = Except.error e) :
    (strStartsWith e.msg "Sequence length must be less than max_position_embeddings" = true →
      (embed_text C self inputs context).1 = Except.error (PyExc.mk PyType.embeddingException
        (exceeded_length_message self._model_name (longestStringLen inputs)) (some e))) ∧
    (strStartsWith e.msg "Sequence length must be less than max_position_embeddings" = false →
      (embed_text C self inputs context).1 = Except.error e) := by
  have hb : e.ty.isRuntimeOrValueError = true := by rw [hty]; rfl
  have h1 := embed_text_error_case α C self inputs context e hne henc
  rw [if_pos hb] at h1
  constructor
  · intro hA
    rw [h1]
    rw [handle_matched self e (inputs.map EmbInput.str)
      (fun m => strStartsWith m "Sequence length must be less than max_position_embeddings")
      (by rw [hty]; rfl) hA (by simp [hne])]
    rw [longestLen_map_str]
  · intro hA
    rw [h1]
    simp [__handle_exceeded_length_exception, hty, hA,
      EXCEEDED_LENGTH_EXCEPTION_PREDICATE_BY_EXCEPTION_TYPE]

/-- Witness for C3: a marker-prefixed `ValueError` on a batch of length 3
yields the capacity error. -/
theorem C3_value_error_translation_witness :
    (embed_text (demoCollabWith (demoModelRaising demoValueExc)) demoManager
        ["abc"] demoContext).1 =
      Except.error (PyExc.mk PyType.embeddingException
        (exceeded_length_message "demo-model" 3) (some demoValueExc)) :=
  (C3_value_error_translation Int (demoCollabWith (demoModelRaising demoValueExc))
      demoManager ["abc"] demoContext demoValueExc (by decide) rfl rfl).1 (by decide)

/-- Claim C4: an `encode` error whose class is neither `RuntimeError` nor
`ValueError` (nor a subclass of either) propagates out of `embed_text`
unchanged; and the failure classifier never swallows an error: for every
caught error and non-empty batch it produces either the original error or
the translated capacity error chained to it (its return type in this
embedding is the exception it raises, so it never returns normally). -/
theorem C4_unrelated_errors_propagate (α : Type) (C : Collaborators α)
    (self : SentenceTransformerManager) (inputs : List String)
    (context : ExecutionContext) (e : PyExc)
    (hne : inputs ≠ [])
    (hty : e.ty.isRuntimeOrValueError = false)
    (henc : (modelOf C self inputs.length).encode (inputs.map EmbInput.str)
        (promptOf C self inputs.length context) = Except.error e) :
    (embed_text C self inputs context).1 = Except.error e ∧
    ∀ (e2 : PyExc) (batch : List EmbInput), batch ≠ [] →
      __handle_exceeded_length_exception self e2 batch = e2 ∨
      __handle_exceeded_length_exception self e2 batch =
        PyExc.mk PyType.embeddingException
          (exceeded_length_message self._model_name (longestLen batch)) (some e2) := by
  constructor
  · have h1 := embed_text_error_case α C self inputs context e hne henc
    rwa [if_neg (by simp [hty])] at h1
  · intro e2 batch hb2
    rcases hp : EXCEEDED_LENGTH_EXCEPTION_PREDICATE_BY_EXCEPTION_TYPE e2.ty with _ | p
    · left; simp [__handle_exceeded_length_exception, hp]
    · by_cases hm : p e2.msg = true
      · right; exact handle_matched self e2 batch p hp hm hb2
      · left; simp [__handle_exceeded_length_exception, hp, hm]

/-- Witness for C4: a `TimeoutError`-class exception propagates unchanged,
and the classifier applied to a caught error produces one of the two
allowed outcomes. -/
theorem C4_unrelated_errors_propagate_witness :
    (embed_text (demoCollabWith (demoModelRaising demoTimeoutExc)) demoManager
        ["ab"] demoContext).1 = Except.error demoTimeoutExc ∧
    (__handle_exceeded_length_exception demoManager demoRuntimeExc [EmbInput.str "ab"] =
        demoRuntimeExc ∨
      __handle_exceeded_length_exception demoManager demoRuntimeExc [EmbInput.str "ab"] =
        PyExc.mk PyType.embeddingException
          (exceeded_length_message "demo-model" 2) (some demoRuntimeExc)) :=
  ⟨(C4_unrelated_errors_propagate Int (demoCollabWith (demoModelRaising demoTimeoutExc))
      demoManager ["ab"] demoContext demoTimeoutExc (by decide) rfl rfl).1,
   (C4_unrelated_errors_propagate Int (demoCollabWith (demoModelRaising demoTimeoutExc))
      demoManager ["ab"] demoContext demoTimeoutExc (by decide) rfl rfl).2
     demoRuntimeExc [EmbInput.str "ab"] (by decide)⟩

/-- Claim C5: whenever the classifier translates (its predicate table
matched, non-empty batch), the raised error is the `EmbeddingException`,
its message contains the configured model name and the longest offending
input length (strings by character count, non-strings as zero), and the
original error is chained as its cause. -/
theorem C5_translated_error_diagnostics (self : SentenceTransformerManager)
    (e : PyExc) (batch : List EmbInput) (p : String → Bool)
    (hp : EXCEEDED_LENGTH_EXCEPTION_PREDICATE_BY_EXCEPTION_TYPE e.ty = some p)
    (hmatch : p e.msg = true) (hne : batch ≠ []) :
    (__handle_exceeded_length_exception self e batch).ty = PyType.embeddingException ∧
    (__handle_exceeded_length_exception self e batch).cause = some e ∧
    self._model_name.data <:+: (__handle_exceeded_length_exception self e batch).msg.data ∧
    (toString (longestLen batch)).data <:+:
      (__handle_exceeded_length_exception self e batch).msg.data := by
  rw [handle_matched self e batch p hp hmatch hne]
  refine ⟨rfl, rfl,
    ⟨"Model ".data,
     (" failed to encode inputs - input was too long. Try shortening the input text.\n" ++
      "Longest input length: " ++ toString (longestLen batch) ++ " chars").data, ?_⟩,
    ⟨("Model " ++ self._model_name ++
      " failed to encode inputs - input was too long. Try shortening the input text.\n" ++
      "Longest input length: ").data, " chars".data, ?_⟩⟩ <;>
    simp [exceeded_length_message, PyExc.msg, String.data_append, List.append_assoc]

/-- Witness for C5: on the batch `["abcd", image]` the translated error
carries the model name and the length 4 (the image contributes zero). -/
theorem C5_translated_error_diagnostics_witness :
    (__handle_exceeded_length_exception demoManager demoRuntimeExc
        [EmbInput.str "abcd", EmbInput.img 0]).ty = PyType.embeddingException ∧
    (__handle_exceeded_length_exception demoManager demoRuntimeExc
        [EmbInput.str "abcd", EmbInput.img 0]).cause = some demoRuntimeExc ∧
    "demo-model".data <:+: (__handle_exceeded_length_exception demoManager demoRuntimeExc
        [EmbInput.str "abcd", EmbInput.img 0]).msg.data ∧
    "4".data <:+: (__handle_exceeded_length_exception demoManager demoRuntimeExc
        [EmbInput.str "abcd", EmbInput.img 0]).msg.data :=
  C5_translated_error_diagnostics demoManager demoRuntimeExc
    [EmbInput.str "abcd", EmbInput.img 0]
    (fun m => strContains m "The size of tensor a" &&
      strContains m "must match the size of tensor b") rfl (by decide) (by decide)

/-- Claim C6: for the empty input sequence, `embed_text` returns the empty
sequence and its event trace is empty: device selection, model
acquisition, and `encode` are never invoked. -/
theorem C6_empty_input_fast_path (α : Type) (C : Collaborators α)
    (self : SentenceTransformerManager) (context : ExecutionContext) :
    embed_text C self [] context = (Except.ok [], ([] : List Event)) := rfl

/-- Claim C7: for a non-empty batch of N inputs, if `encode` returns one
row per input in order with uniform row length `calculate_length()`, then
`embed_text` returns exactly the rows wrapped as `Vector`s in order, N of
them, each of length `calculate_length()`. -/
theorem C7_success_shape (α : Type) (C : Collaborators α)
    (self : SentenceTransformerManager) (inputs : List String)
    (context : ExecutionContext) (rows : List (List α))
    (hne : inputs ≠ [])
    (henc : (modelOf C self inputs.length).encode (inputs.map EmbInput.str)
        (promptOf C self inputs.length context) = Except.ok rows)
    (hcount : rows.length = inputs.length)
    (hlen : ∀ r ∈ rows, r.length = (calculate_length C self).1) :
    (embed_text C self inputs context).1 =
      Except.ok (rows.map fun row => (⟨row⟩ : Vector α)) ∧
    (rows.map fun row => (⟨row⟩ : Vector α)).length = inputs.length ∧
    ∀ v ∈ rows.map fun row => (⟨row⟩ : Vector α),
      v.value.length = (calculate_length C self).1 := by
  refine ⟨embed_text_ok_case α C self inputs context rows hne henc, by simp [hcount], ?_⟩
  intro v hv
  simp only [List.mem_map] at hv
  obtain ⟨r, hr, rfl⟩ := hv
  exact hlen r hr

/-- Witness for C7: two inputs, two rows of length 2, wrapped in order. -/
theorem C7_success_shape_witness :
    (embed_text (demoCollabWith (demoModelRows [[1, 2], [3, 4]])) demoManager
        ["ab", "c"] demoContext).1 =
      Except.ok [(⟨[1, 2]⟩ : Vector Int), ⟨[3, 4]⟩] :=
  (C7_success_shape Int (demoCollabWith (demoModelRows [[1, 2], [3, 4]])) demoManager
      ["ab", "c"] demoContext [[1, 2], [3, 4]] (by decide) rfl rfl (by decide)).1

/-- Claim C8: for a non-empty batch, `embed_text` first calls the device
selector with exactly the batch size and then acquires the model keyed by
(model name, returned device, cache dir) — and these are the only calls of
those two kinds in the trace; `calculate_length` performs exactly one model
cache length lookup keyed by model name and cache dir, with no `encode`
call. -/
theorem C8_collaborator_calls (α : Type) (C : Collaborators α)
    (self : SentenceTransformerManager) (inputs : List String)
    (context : ExecutionContext)
    (hne : inputs ≠ []) :
    (embed_text C self inputs context).2.take 2 =
      [Event.getDeviceType inputs.length,
       Event.initModelCall self._model_name (C.get_device_type inputs.length)
         self._model_cache_dir] ∧
    (∀ n, Event.getDeviceType n ∈ (embed_text C self inputs context).2 →
      n = inputs.length) ∧
    (∀ nm d cd, Event.initModelCall nm d cd ∈ (embed_text C self inputs context).2 →
      nm = self._model_name ∧ d = C.get_device_type inputs.length ∧
        cd = self._model_cache_dir) ∧
    calculate_length C self =
      (C.cache_calculate_length self._model_name self._model_cache_dir,
        [Event.cacheCalculateLength self._model_name self._model_cache_dir]) := by
  obtain ⟨tail, htr, htail⟩ := embed_text_trace_nonempty α C self inputs context hne
  refine ⟨by rw [htr]; simp [List.take], ?_, ?_, rfl⟩
  · intro n hn
    rw [htr] at hn
    rcases htail with h0 | h0 <;> subst h0 <;> simp at hn <;> exact hn
  · intro nm d cd hn
    rw [htr] at hn
    rcases htail with h0 | h0 <;> subst h0 <;> simp at hn <;>
      exact ⟨hn.1, hn.2.1, hn.2.2⟩

/-- Witness for C8: on a singleton batch the first two trace events are the
device selection with batch size 1 and the model acquisition under the
returned device, and `calculate_length` is the single cache lookup. -/
theorem C8_collaborator_calls_witness :
    (embed_text (demoCollabWith (demoModelRows [[5, 6]])) demoManager
        ["ab"] demoContext).2.take 2 =
      [Event.getDeviceType 1, Event.initModelCall "demo-model" DeviceType.cpu none] ∧
    calculate_length (demoCollabWith (demoModelRows [[5, 6]])) demoManager =
      (2, [Event.cacheCalculateLength "demo-model" none]) :=
  ⟨(C8_collaborator_calls Int (demoCollabWith (demoModelRows [[5, 6]])) demoManager
      ["ab"] demoContext (by decide)).1,
   (C8_collaborator_calls Int (demoCollabWith (demoModelRows [[5, 6]])) demoManager
      ["ab"] demoContext (by decide)).2.2.2⟩

/-- Claim C9: for a caught error whose runtime type is a proper subclass of
`RuntimeError` or of `ValueError`, the classifier re-raises the original
error unchanged even when its message satisfies the corresponding substring
predicate, because the predicate table is keyed by exact runtime type. -/
theorem C9_subclass_not_translated (self : SentenceTransformerManager)
    (batch : List EmbInput) (e : PyExc) (n : String)
    (hty : e.ty = PyType.subRuntimeError n ∨ e.ty = PyType.subValueError n)
    (_hmsg : (strContains e.msg "The size of tensor a" &&
        strContains e.msg "must match the size of tensor b") = true ∨
      strStartsWith e.msg "Sequence length must be less than max_position_embeddings" = true) :
    __handle_exceeded_length_exception self e batch = e := by
  rcases hty with h | h <;>
    simp [__handle_exceeded_length_exception, h,
      EXCEEDED_LENGTH_EXCEPTION_PREDICATE_BY_EXCEPTION_TYPE]

/-- Witness for C9: a `RuntimeError` subclass whose message matches both
substrings is re-raised unchanged. -/
theorem C9_subclass_not_translated_witness :
    __handle_exceeded_length_exception demoManager demoSubExc [EmbInput.str "ab"] =
      demoSubExc :=
  C9_subclass_not_translated demoManager [EmbInput.str "ab"] demoSubExc "OutOfMemoryError"
    (Or.inl rfl) (Or.inl (by decide))

/-- Claim C10: the longest-input maximum is undefined on an empty batch
(Python's `max` raises there), and through every call path of `embed_text`
the classifier is only ever invoked with a non-empty batch, so that branch
is unreachable with an empty batch. -/
theorem C10_empty_max_unreachable :
    pyMax [] = Except.error MAX_EMPTY_SEQUENCE_ERROR ∧
    ∀ (α : Type) (C : Collaborators α) (self : SentenceTransformerManager)
      (inputs : List String) (context : ExecutionContext) (batch : List EmbInput),
      Event.handleExceededCall batch ∈ (embed_text C self inputs context).2 →
      batch ≠ [] := by
  refine ⟨rfl, ?_⟩
  intro α C self inputs context batch hmem
  by_cases hne : inputs = []
  · subst hne
    simp [embed_text] at hmem
  · obtain ⟨tail, htr, htail⟩ := embed_text_trace_nonempty α C self inputs context hne
    rw [htr] at hmem
    rcases htail with h0 | h0 <;> subst h0 <;> simp at hmem
    rw [hmem]
    simp [hne]

/-- Witness for C10: a run in which the classifier is invoked has it
invoked on a non-empty batch. -/
theorem C10_empty_max_unreachable_witness :
    Event.handleExceededCall [EmbInput.str "ab"] ∈
      (embed_text (demoCollabWith (demoModelRaising demoRuntimeExc)) demoManager
        ["ab"] demoContext).2 ∧
    ([EmbInput.str "ab"] : List EmbInput) ≠ [] :=
  ⟨by decide,
   C10_empty_max_unreachable.2 Int (demoCollabWith (demoModelRaising demoRuntimeExc))
     demoManager ["ab"] demoContext [EmbInput.str "ab"] (by decide)⟩

end Superlinked
